import Mathlib

/-!
Verification of the proxy-sidecar-for-aws-nitro-enclave repository.

The development shallowly embeds the three Python services:

* `src/sidecar/main.py` — the enclave sidecar (ES): `VSockServer.process_request`,
  `VSockServer._build_http_request`, `VSockServer._read_http_response`,
  `VSockServer.send_response`, plus `TunnelClient.create_tunnel`.
* `src/host_proxy/main.py` — the host ingress proxy (HIP): `VSockClient.send_request`,
  `ProxyHandler._send_with_retry`, `ProxyHandler._handle_request`.
* `src/host_proxy/tunnel.py` — the host tunnel relay (HTR):
  `NetworkTunnel.handle_tunnel_request`, `NetworkTunnel._forward_data_bidirectional`.

Byte streams are modelled as `List Nat` (one `Nat` per byte) where the content is
opaque, and as `List Char` where the Python code decodes them as text (all inputs
relevant to the claims are ASCII, for which the UTF-8 decode used by the source is
the identity on code points).  Python `dict`s with insertion order are modelled as
association lists `List (String × String)` together with the update operation that
preserves the position of an existing key.  Fallible operations return `Option` or
`Except`; a `none`/`error` result corresponds to the Python exception that the
source code raises (and that its callers catch).
-/

/-! ## Length-prefixed framing

`len(data).to_bytes(4, byteorder='big')` / `int.from_bytes(..., byteorder='big')`
as used by `TunnelClient.create_tunnel` (sidecar/main.py:46,54),
`VSockServer.handle_client` (sidecar/main.py:129-136),
`VSockServer.send_response` (sidecar/main.py:335),
`VSockClient.send_request` (host_proxy/main.py:73,81-85) and
`NetworkTunnel.handle_tunnel_request` (host_proxy/tunnel.py:53-56,78,97).
-/

/-- `n.to_bytes(4, byteorder='big')`.  Python raises `OverflowError` when
`n ≥ 2^32`; theorems about this function therefore carry that bound. -/
def toBytesBE (n : Nat) : List Nat :=
  [n / 16777216 % 256, n / 65536 % 256, n / 256 % 256, n % 256]

/-- `int.from_bytes(bs, byteorder='big')`. -/
def fromBytesBE (bs : List Nat) : Nat :=
  bs.foldl (fun a b => a * 256 + b) 0

/-- `await reader.readexactly(n)` on a stream with remaining content `s`:
returns the `n` bytes read and the rest of the stream, or `none` when fewer
than `n` bytes remain (`asyncio.IncompleteReadError`). -/
def readexactly (n : Nat) (s : List α) : Option (List α × List α) :=
  if n ≤ s.length then some (s.take n, s.drop n) else none

/-- Writer side of the framing: `writer.write(len(data).to_bytes(4,'big'))`
followed by `writer.write(data)`, as in `VSockServer.send_response` and
`VSockClient.send_request`. -/
def encodeFrame (payload : List Nat) : List Nat :=
  toBytesBE payload.length ++ payload

/-- Reader side of the framing, common to all three read sites
(`VSockServer.handle_client`, `NetworkTunnel.handle_tunnel_request`,
`VSockClient.send_request`): `readexactly(4)`, `int.from_bytes(..., 'big')`,
then `readexactly(length)`.  No site checks the declared length against any
cap before the second `readexactly`. -/
def decodeFrame (s : List Nat) : Option (List Nat × List Nat) :=
  match readexactly 4 s with
  | none => none
  | some (lenBytes, rest) => readexactly (fromBytesBE lenBytes) rest

/-! ## Small Python text primitives -/

/-- Python `str.strip()` whitespace set (the ASCII part; sufficient for the
header and status-line text the sidecar handles). -/
def isPySpace (c : Char) : Bool :=
  c = ' ' || c = '\t' || c = '\n' || c = '\r' || c = '\x0b' || c = '\x0c'

/-- Python `str.strip()` on a character list. -/
def stripChars (l : List Char) : List Char :=
  ((l.dropWhile isPySpace).reverse.dropWhile isPySpace).reverse

/-- Split a list at the first occurrence of `sep`; `none` when `sep` is absent.
Used to model `str.split(sep, 1)`, `str.partition(sep)` and `sep in s` checks. -/
def splitFirst (sep : Char) : List Char → Option (List Char × List Char)
  | [] => none
  | c :: rest =>
    if c = sep then some ([], rest)
    else (splitFirst sep rest).map (fun p => (c :: p.1, p.2))

/-- Decidable list-prefix test, modelling `str.startswith`. -/
def isPrefixList : List Char → List Char → Bool
  | [], _ => true
  | _ :: _, [] => false
  | a :: as, b :: bs => a = b && isPrefixList as bs

/-- Value of a non-empty all-digit string, `none` otherwise. -/
def digitsVal? (l : List Char) : Option Nat :=
  if l = [] then none
  else if l.all (fun c => c.isDigit) then
    some (l.foldl (fun a c => a * 10 + (c.toNat - 48)) 0)
  else none

/-- Python `int(s)` / `int(s, 10)`: surrounding whitespace is ignored, an
optional single sign is allowed, then decimal digits; `none` models the
`ValueError` Python raises otherwise.  (Pythonic digit-group underscores are
not modelled; no header or status value in the repository uses them.) -/
def pyIntStr? (l0 : List Char) : Option Int :=
  match stripChars l0 with
  | '-' :: ds => (digitsVal? ds).map (fun n => -(n : Int))
  | '+' :: ds => (digitsVal? ds).map (fun n => (n : Int))
  | ds => (digitsVal? ds).map (fun n => (n : Int))

/-- `await reader.readline()` on a text stream: everything up to and including
the first `'\n'`, or the whole rest of the stream at EOF. -/
def readline : List Char → List Char × List Char
  | [] => ([], [])
  | c :: rest =>
    if c = '\n' then ([c], rest)
    else
      let p := readline rest
      (c :: p.1, p.2)

/-! ## Insertion-ordered dictionaries (Python `dict`) -/

/-- `k in d` for a Python `dict` modelled as an insertion-ordered
association list. -/
def dictContains (d : List (String × String)) (k : String) : Bool :=
  d.any (fun kv => kv.1 == k)

/-- `d[k]` lookup (first — and by the `dictSet` invariant only — binding). -/
def dictGet (d : List (String × String)) (k : String) : Option String :=
  (d.find? (fun kv => kv.1 == k)).map (fun kv => kv.2)

/-- `d[k] = v` on a Python `dict`: an existing key keeps its position and gets
the new value, a new key is appended. -/
def dictSet (d : List (String × String)) (k v : String) : List (String × String) :=
  if dictContains d k then
    d.map (fun kv => if kv.1 == k then (k, v) else kv)
  else d ++ [(k, v)]

/-! ## Control-channel envelopes -/

/-- The JSON dictionary ES sends back over the control channel
(`VSockServer.process_request` / `VSockServer._read_http_response` results).
Each field is `Option`al because the source builds different subsets of keys
at different return sites. -/
structure ResponseEnvelope where
  status : Option Int := none
  error : Option String := none
  success : Option Bool := none
  headers : Option (List (String × String)) := none
  body : Option String := none
deriving DecidableEq, Repr

/-- The JSON dictionary HIP sends to ES (`ProxyHandler._handle_request`,
host_proxy/main.py:158-163). -/
structure RequestEnvelope where
  method : Option String := none
  url : Option String := none
  headers : List (String × String) := []
  body : Option String := none
deriving DecidableEq, Repr

/-! ## `VSockServer._build_http_request` (sidecar/main.py:245-274) -/

/-- `VSockServer._build_http_request`: builds the raw HTTP/1.1 request text.
Mirrors the source exactly: the `Host` header is appended to the dict when
absent; header lines are emitted in insertion order; `Content-Length` (UTF-8
byte length of the body) is appended when a truthy body is present and the
key is absent; `Connection: close` is appended when absent; then an empty
element and, when the body is truthy, the body — all joined with `"\r\n"`.
Python's `if body:` treats both `None` and the empty string as falsy. -/
def build_http_request (method path : String) (headers : List (String × String))
    (body : Option String) (host : String) : String :=
  let headers := if dictContains headers "Host" then headers
                 else headers ++ [("Host", host)]
  let bodyTruthy := body.getD "" ≠ ""
  let requestLines :=
    [method ++ " " ++ path ++ " HTTP/1.1"]
    ++ headers.map (fun kv => kv.1 ++ ": " ++ kv.2)
    ++ (if bodyTruthy ∧ ¬ dictContains headers "Content-Length" then
          ["Content-Length: " ++ toString (body.getD "").utf8ByteSize]
        else [])
    ++ (if ¬ dictContains headers "Connection" then ["Connection: close"] else [])
    ++ [""]
    ++ (if bodyTruthy then [body.getD ""] else [])
  String.intercalate "\r\n" requestLines

/-! ## `VSockServer._read_http_response` (sidecar/main.py:276-327) -/

/-- The failure dictionary built by the `except` clause of
`_read_http_response` (sidecar/main.py:323-327).  The `msg` argument stands
for Python's `str(e)`; the exact exception texts are abbreviated and no
theorem depends on them. -/
def parse502 (msg : String) : ResponseEnvelope :=
  { status := some 502, error := some ("Response parsing failed: " ++ msg),
    success := some false }

/-- `status_line.split(' ', 2)[1]`: the text between the first and second
space, the rest after the first space when there is no second one, and `none`
(Python `IndexError`) when the line contains no space at all. -/
def statusToken (l : List Char) : Option (List Char) :=
  match splitFirst ' ' l with
  | none => none
  | some (_, b) =>
    match splitFirst ' ' b with
    | some (c, _) => some c
    | none => some b

/-- The header-reading loop of `_read_http_response` (sidecar/main.py:291-301):
read a line, strip it, stop on an empty line (also at EOF, where `readline`
returns empty), otherwise — when the line contains `':'` — split on the first
`':'`, strip key and value and store them (last value wins for duplicates).
The loop consumes at least one character per iteration, so fuel
`s.length + 1` (supplied by `readHeaders`) never runs out. -/
def readHeadersAux : Nat → List Char → List (String × String) →
    List (String × String) × List Char
  | 0, s, acc => (acc, s)
  | fuel + 1, s, acc =>
    let p := readline s
    let lineS := stripChars p.1
    if lineS = [] then (acc, p.2)
    else
      let acc2 :=
        match splitFirst ':' lineS with
        | some kv => dictSet acc (String.mk (stripChars kv.1)) (String.mk (stripChars kv.2))
        | none => acc
      readHeadersAux fuel p.2 acc2

/-- Header section of `_read_http_response`. -/
def readHeaders (s : List Char) : List (String × String) × List Char :=
  readHeadersAux (s.length + 1) s []

/-- Body section of `_read_http_response` (sidecar/main.py:303-310): when the
parsed headers contain `Content-Length`, `int(...)` it (a parse failure or a
negative value raises — `none` here, surfacing as the 502 envelope) and
`readexactly` that many bytes; otherwise `read()` the whole rest of the
stream until EOF.  `Transfer-Encoding` is never consulted. -/
def readBody (hdrs : List (String × String)) (s : List Char) : Option (List Char) :=
  match dictGet hdrs "Content-Length" with
  | some cl =>
    match pyIntStr? cl.toList with
    | none => none
    | some n =>
      if n < 0 then none
      else if n.toNat ≤ s.length then some (s.take n.toNat) else none
  | none => some s

/-- `VSockServer._read_http_response` on a decoded upstream byte stream:
status line (`startswith('HTTP/')`, `split(' ', 2)`, `int(parts[1])`),
header loop, body per `readBody`; any raised step yields the 502 envelope. -/
def read_http_response (s : List Char) : ResponseEnvelope :=
  let p := readline s
  let lineS := stripChars p.1
  if ¬ isPrefixList "HTTP/".toList lineS then
    parse502 ("Invalid HTTP response: " ++ String.mk lineS)
  else
    match statusToken lineS with
    | none => parse502 "list index out of range"
    | some tok =>
      match pyIntStr? tok with
      | none => parse502 ("invalid literal for int with base 10: " ++ String.mk tok)
      | some code =>
        let hp := readHeaders p.2
        match readBody hp.1 hp.2 with
        | none => parse502 "body read failed"
        | some bodyChars =>
          { status := some code, headers := some hp.1,
            body := some (String.mk bodyChars), success := some true }

/-! ## `urllib.parse.urlparse` (the parts `process_request` uses) -/

/-- Characters CPython allows in a URL scheme after the initial letter. -/
def schemeCharOk (c : Char) : Bool :=
  c.isAlpha || c.isDigit || c = '+' || c = '-' || c = '.'

/-- Whether a candidate scheme (the text before the first `':'`) is accepted
by CPython `urlsplit`: non-empty, starts with a letter, all characters from
the scheme alphabet. -/
def schemeOk : List Char → Bool
  | [] => false
  | c :: cs => c.isAlpha && (c :: cs).all schemeCharOk

/-- Scheme splitting of `urlsplit`: if the text before the first `':'` is a
valid scheme it is lowercased and removed, otherwise the URL is left intact
with no scheme. -/
def splitSchemePart (u : List Char) : Option (List Char) × List Char :=
  match splitFirst ':' u with
  | none => (none, u)
  | some p =>
    if schemeOk p.1 then (some (p.1.map Char.toLower), p.2) else (none, u)

/-- `_splitnetloc`: the netloc runs to the first of `'/'`, `'?'`, `'#'`. -/
def takeNetloc : List Char → List Char × List Char
  | [] => ([], [])
  | c :: rest =>
    if c = '/' ∨ c = '?' ∨ c = '#' then ([], c :: rest)
    else
      let p := takeNetloc rest
      (c :: p.1, p.2)

/-- `netloc.rpartition('@')[2]`: the text after the last `'@'`, or the whole
netloc when there is none. -/
def afterLastAt (l : List Char) : List Char :=
  match splitFirst '@' l.reverse with
  | some p => p.1.reverse
  | none => l

/-- The components of `urlparse(url)` that `process_request` reads.
`portStr` is the raw text after the first `':'` of the host info (`none` when
absent or empty), exactly as CPython `_hostinfo` keeps it; converting it to a
number is the separate, failure-prone `.port` property (`pyPort`).
Bracketed IPv6 hosts are not modelled; no claim involves them. -/
structure UrlParts where
  scheme : String
  netloc : String
  path : String
  query : String
  hostname : Option String
  portStr : Option (List Char)
deriving DecidableEq, Repr

/-- `urllib.parse.urlparse` (via `urlsplit`): scheme, `//`-netloc, fragment
and query split, and the `_hostinfo` host/port split with the host
lowercased (`None` when empty). -/
def pyUrlparse (u : String) : UrlParts :=
  let l := u.toList
  let sp := splitSchemePart l
  let np :=
    match sp.2 with
    | '/' :: '/' :: r => takeNetloc r
    | other => (([] : List Char), other)
  let noFrag :=
    match splitFirst '#' np.2 with
    | some p => p.1
    | none => np.2
  let pq :=
    match splitFirst '?' noFrag with
    | some p => (p.1, p.2)
    | none => (noFrag, ([] : List Char))
  let hostinfo := afterLastAt np.1
  let hpPair :=
    match splitFirst ':' hostinfo with
    | some p => (p.1, if p.2 = [] then none else some p.2)
    | none => (hostinfo, none)
  { scheme := String.mk ((sp.1.getD []).map Char.toLower)
    netloc := String.mk np.1
    path := String.mk pq.1
    query := String.mk pq.2
    hostname := if hpPair.1 = [] then none
                else some (String.mk (hpPair.1.map Char.toLower))
    portStr := hpPair.2 }

/-- The `.port` property of a parse result: `int(port, 10)` (`ValueError` on
non-numeric text, modelled as `Except.error`) followed by the 0–65535 range
check.  CPython quotes the offending text with `repr` in the first message;
the quoting is elided here and no theorem depends on the text. -/
def pyPort (p : UrlParts) : Except String (Option Nat) :=
  match p.portStr with
  | none => Except.ok none
  | some ds =>
    match pyIntStr? ds with
    | none => Except.error ("Port could not be cast to integer value as " ++ String.mk ds)
    | some v =>
      if 0 ≤ v ∧ v ≤ 65535 then Except.ok (some v.toNat)
      else Except.error "Port out of range 0-65535"

/-- `true` exactly when evaluating `urlparse(u).port` raises `ValueError`. -/
def portParseFails (u : String) : Bool :=
  match pyPort (pyUrlparse u) with
  | Except.error _ => true
  | Except.ok _ => false

/-! ## `VSockServer.process_request` (sidecar/main.py:156-235) -/

/-- Observable interactions of one `process_request` run with the host side.
A `tunnelAttempt` is recorded when control reaches
`TunnelClient.create_tunnel`, i.e. when ES connects to HTR and sends the
tunnel-open envelope for `(host, port)`. -/
inductive Event where
  | tunnelAttempt (host : Option String) (port : Nat)
deriving DecidableEq, Repr

/-- Oracle for the network interactions of one request, replacing the real
sockets: `create_tunnel` raises (`tunnelFail` — HTR unreachable, or reply
`status != 'connected'`), `loop.start_tls` raises (`tlsFail` — TLS handshake
failure, e.g. certificate verification), or the handshake succeeds and the
upstream answers with the byte stream `s` (`upstream`). -/
inductive NetOutcome where
  | tunnelFail (msg : String)
  | tlsFail (msg : String)
  | upstream (s : List Char)
deriving DecidableEq, Repr

/-- `VSockServer.process_request`.  Control flow mirrors the source:

1. `if not url:` → `{'status': 400, 'error': 'URL is required'}` (no
   `success` key).
2. `urlparse`; evaluating `parsed_url.port` may raise `ValueError`, which
   only the *outer* `except` catches → `{'status': 500, ...,
   'success': False}`; `port = parsed_url.port or (443 if scheme == 'https'
   else 80)` (`or` treats port 0 as falsy).
3. `if parsed_url.scheme != 'https':` → `{'status': 400, 'error': 'Only
   HTTPS URLs are supported for security'}` (no `success` key).
4. Only then `create_tunnel(host, port)`; any exception from the tunnel or
   the TLS handshake is caught by the *inner* `except` →
   `{'status': 503, 'error': 'Connection failed: ...', 'success': False}`.
5. On TLS success the upstream reply is parsed by `_read_http_response`
   (which catches its own errors, returning the 502 envelope as a value).

The transport `close()` calls after a successful exchange are modelled as
non-raising. -/
def process_request (req : RequestEnvelope) (net : NetOutcome) :
    ResponseEnvelope × List Event :=
  if req.url.getD "" = "" then
    ({ status := some 400, error := some "URL is required" }, [])
  else
    let u := req.url.getD ""
    let parsed := pyUrlparse u
    match pyPort parsed with
    | Except.error e =>
      ({ status := some 500, error := some ("Internal error: " ++ e),
         success := some false }, [])
    | Except.ok portOpt =>
      let dfltPort : Nat := if parsed.scheme = "https" then 443 else 80
      let port : Nat :=
        match portOpt with
        | some n => if n = 0 then dfltPort else n
        | none => dfltPort
      if parsed.scheme ≠ "https" then
        ({ status := some 400,
           error := some "Only HTTPS URLs are supported for security" }, [])
      else
        match net with
        | NetOutcome.tunnelFail msg =>
          ({ status := some 503, error := some ("Connection failed: " ++ msg),
             success := some false }, [Event.tunnelAttempt parsed.hostname port])
        | NetOutcome.tlsFail msg =>
          ({ status := some 503, error := some ("Connection failed: " ++ msg),
             success := some false }, [Event.tunnelAttempt parsed.hostname port])
        | NetOutcome.upstream s =>
          (read_http_response s, [Event.tunnelAttempt parsed.hostname port])

/-! ## HIP: `ProxyHandler._send_with_retry` and `ProxyHandler._handle_request`
(host_proxy/main.py:135-212) -/

/-- `HostConfig.MAX_RETRIES`. -/
def MAX_RETRIES : Nat := 3

/-- The retry loop of `_send_with_retry`.  `attempts i` is the value produced
by the `i`-th call of `VSockClient.send_request` (`none` when that call
returned `None`; `send_request` catches every exception and returns `None`,
so the `except` clause of the loop — the only place holding the
`time.sleep(RETRY_DELAY)` — is not reached by request outcomes).  Any
envelope, failure or success, is returned as soon as it is not `None`.  The
second component counts the `send_request` calls actually made. -/
def retryLoop (attempts : Nat → Option ResponseEnvelope) :
    Nat → Nat → Option ResponseEnvelope × Nat
  | 0, i => (none, i)
  | fuel + 1, i =>
    match attempts i with
    | some r => (some r, i + 1)
    | none => retryLoop attempts fuel (i + 1)

/-- `ProxyHandler._send_with_retry`: `for attempt in range(MAX_RETRIES)`. -/
def send_with_retry (attempts : Nat → Option ResponseEnvelope) :
    Option ResponseEnvelope × Nat :=
  retryLoop attempts MAX_RETRIES 0

/-- The HTTP response HIP writes to its client: either the error path
(`_send_error_response`) with a status code and plain-text message, or the
success path, which hands the whole envelope to `_send_success_response`. -/
inductive HttpOut where
  | errorResp (status : Int) (msg : String)
  | successResp (resp : ResponseEnvelope)
deriving DecidableEq, Repr

/-- The reply dispatch of `ProxyHandler._handle_request`
(host_proxy/main.py:168-179): a `None` reply (exhausted retries) → 503
`'Service unavailable: ...'`; an envelope whose `success` key is absent or
not `True` (`response.get('success', False)`) → error response with
`response.get('status', 500)` and `response.get('error', 'Unknown error')`;
otherwise the success path. -/
def handle_reply (r : Option ResponseEnvelope) : HttpOut :=
  match r with
  | none => HttpOut.errorResp 503 "Service unavailable: Unable to connect to enclave"
  | some resp =>
    if resp.success.getD false then HttpOut.successResp resp
    else HttpOut.errorResp (resp.status.getD 500) (resp.error.getD "Unknown error")

/-! ## HTR: `NetworkTunnel._forward_data_bidirectional`
(host_proxy/tunnel.py:111-158) -/

/-- Actions an asyncio `StreamWriter` offers to the forwarding loops.
`close` (`StreamWriter.close()`) closes the underlying transport — both
halves of the socket; `writeEofHalfClose` (`StreamWriter.write_eof()`) would
close only the write half.  The source only ever calls `write` and
`close`. -/
inductive WriterAction where
  | write (data : List Nat)
  | writeEofHalfClose
  | close
deriving DecidableEq, Repr

/-- One direction of `_forward_data_bidirectional`
(`forward_enclave_to_target` / `forward_target_to_enclave`): read chunks
until an empty read (EOF) — writing each non-empty chunk to the peer — then,
in the `finally` clause, `close()` the peer writer.  `reads` is the sequence
of values returned by successive `reader.read(BUFFER_SIZE)` calls; an
exhausted list is treated like EOF (the unread tail of a real stream).  An
exception while reading or writing ends the loop the same way: the `finally`
close still runs. -/
def forwardLoop : List (List Nat) → List WriterAction
  | [] => [WriterAction.close]
  | chunk :: rest =>
    if chunk = [] then [WriterAction.close]
    else WriterAction.write chunk :: forwardLoop rest

/-! ## RFC 7230 §4.1 chunked decoding (spec model)

Modelled from the spec: §4.3.3 of the specification requires that, when
`Transfer-Encoding: chunked` is present and `Content-Length` is not, ES
"read chunked encoding per RFC 7230 §4.1".  The repository has no chunked
decoder; this definition follows the RFC so that the behaviour the spec
demands can be compared with what `_read_http_response` actually does. -/

/-- Hexadecimal digit value. -/
def hexDigitVal? (c : Char) : Option Nat :=
  if c.isDigit then some (c.toNat - 48)
  else if 'a' ≤ c ∧ c ≤ 'f' then some (c.toNat - 87)
  else if 'A' ≤ c ∧ c ≤ 'F' then some (c.toNat - 55)
  else none

/-- Value of a non-empty hex-digit string. -/
def hexVal? (l : List Char) : Option Nat :=
  if l = [] then none
  else l.foldl (fun acc c => match acc, hexDigitVal? c with
    | some a, some d => some (a * 16 + d)
    | _, _ => none) (some 0)

/-- Modelled from the spec: one RFC 7230 §4.1 chunk step — chunk-size line in
hex (chunk extensions after `';'` ignored), `size` data bytes, CRLF; a size
of zero ends the body (the optional trailer section is ignored). -/
def chunkedDecodeAux : Nat → List Char → List Char → Option (List Char)
  | 0, _, _ => none
  | fuel + 1, s, acc =>
    let p := readline s
    let sizeText :=
      match splitFirst ';' (stripChars p.1) with
      | some q => q.1
      | none => stripChars p.1
    match hexVal? sizeText with
    | none => none
    | some 0 => some acc
    | some n =>
      match readexactly n p.2 with
      | none => none
      | some dr =>
        match dr.2 with
        | '\r' :: '\n' :: r3 => chunkedDecodeAux fuel r3 (acc ++ dr.1)
        | _ => none

/-- Modelled from the spec: RFC 7230 §4.1 chunked-body decoding. -/
def chunkedDecodeSpec (s : List Char) : Option String :=
  (chunkedDecodeAux (s.length + 1) s []).map String.mk

/-! ## Helper lemmas -/

theorem fromBytesBE_toBytesBE {n : Nat} (h : n < 4294967296) :
    fromBytesBE (toBytesBE n) = n := by
  simp only [toBytesBE, fromBytesBE, List.foldl]
  omega

theorem length_toBytesBE (n : Nat) : (toBytesBE n).length = 4 := rfl

theorem readexactly_append (pre rest : List α) :
    readexactly pre.length (pre ++ rest) = some (pre, rest) := by
  unfold readexactly
  rw [if_pos (by simp)]
  simp

theorem decodeFrame_encodeFrame (m extra : List Nat) (h : m.length < 4294967296) :
    decodeFrame (encodeFrame m ++ extra) = some (m, extra) := by
  unfold decodeFrame encodeFrame
  rw [List.append_assoc]
  have h4 : readexactly 4 (toBytesBE m.length ++ (m ++ extra))
      = some (toBytesBE m.length, m ++ extra) := by
    have := readexactly_append (toBytesBE m.length) (m ++ extra)
    rwa [length_toBytesBE] at this
  rw [h4]
  simp only [fromBytesBE_toBytesBE h]
  exact readexactly_append m extra

/-- Every envelope `_read_http_response` produces is either the success shape
or the 502 failure shape with `success: False` and an error text. -/
theorem read_http_response_shape (s : List Char) :
    (read_http_response s).success = some true
    ∨ ((read_http_response s).success = some false
       ∧ (read_http_response s).status = some 502
       ∧ (read_http_response s).error.isSome = true) := by
  simp only [read_http_response]
  split
  · right; exact ⟨rfl, rfl, rfl⟩
  · split
    · right; exact ⟨rfl, rfl, rfl⟩
    · split
      · right; exact ⟨rfl, rfl, rfl⟩
      · split
        · right; exact ⟨rfl, rfl, rfl⟩
        · left; rfl

/-- Every envelope `process_request` produces is a success, or has a status
and an error text and either carries `success: False` or is one of the two
400 dictionaries that omit the `success` key. -/
theorem process_request_shape (req : RequestEnvelope) (net : NetOutcome) :
    (process_request req net).1.success = some true
    ∨ ((process_request req net).1.status.isSome = true
       ∧ (process_request req net).1.error.isSome = true
       ∧ ((process_request req net).1.success = some false
          ∨ ((process_request req net).1.success = none
             ∧ (process_request req net).1.status = some 400))) := by
  simp only [process_request]
  split
  · right; exact ⟨rfl, rfl, Or.inr ⟨rfl, rfl⟩⟩
  · rcases hpp : pyPort (pyUrlparse (req.url.getD "")) with e | portOpt
    · simp [hpp]
    · simp only [hpp]
      split
      · right; exact ⟨rfl, rfl, Or.inr ⟨rfl, rfl⟩⟩
      · cases net with
        | tunnelFail msg => right; exact ⟨rfl, rfl, Or.inl rfl⟩
        | tlsFail msg => right; exact ⟨rfl, rfl, Or.inl rfl⟩
        | upstream s =>
          rcases read_http_response_shape s with h1 | ⟨h1, h2, h3⟩
          · left; exact h1
          · right
            refine ⟨?_, h3, Or.inl h1⟩
            show (read_http_response s).status.isSome = true
            rw [h2]; rfl

/-! ## Claim theorems -/

/-- Claim C1, counterexample: a TLS handshake failure (`start_tls` raising,
e.g. on certificate verification) against `https://example.test/` produces
the envelope `{success: False, status: 503, error: 'Connection failed: ...'}`
— status 503, not the 502 the claim asserts — because `process_request`
catches the handshake exception in the same `except` clause as tunnel-open
failures. -/
theorem c1_handshake_fail_concrete_503 :
    process_request { url := some "https://example.test/" }
        (NetOutcome.tlsFail "certificate verify failed")
      = ({ status := some 503,
           error := some "Connection failed: certificate verify failed",
           success := some false },
         [Event.tunnelAttempt (some "example.test") 443])
    ∧ ¬ ((process_request { url := some "https://example.test/" }
        (NetOutcome.tlsFail "certificate verify failed")).1.status = some 502) := by
  decide

/-- Claim C1 (amended): for every request with a well-formed `https` URL, a
TLS handshake failure yields the failure envelope
`{success: False, status: 503, error: 'Connection failed: <cause>'}` — the
same status and error shape as a tunnel-open failure, not a distinct 502;
502 arises only from `_read_http_response`. -/
theorem c1_amended_tls_and_tunnel_fail_503 (req : RequestEnvelope) (u msg : String)
    (hu : req.url = some u) (hne : u ≠ "")
    (hs : (pyUrlparse u).scheme = "https") (hp : portParseFails u = false) :
    (process_request req (NetOutcome.tlsFail msg)).1
      = { status := some 503, error := some ("Connection failed: " ++ msg),
          success := some false }
    ∧ (process_request req (NetOutcome.tunnelFail msg)).1
      = { status := some 503, error := some ("Connection failed: " ++ msg),
          success := some false } := by
  have hgetd : req.url.getD "" = u := by rw [hu]; rfl
  constructor <;>
  · simp only [process_request, hgetd]
    rw [if_neg hne]
    rcases hpp : pyPort (pyUrlparse u) with e | portOpt
    · exfalso
      have hx : portParseFails u = true := by unfold portParseFails; rw [hpp]
      rw [hp] at hx
      exact Bool.false_ne_true hx
    · simp only [hpp]
      rw [if_neg (by rw [hs]; exact fun h2 => h2 rfl)]

/-- Claim C1 (amended), witness. -/
theorem c1_amended_witness :
    (process_request { url := some "https://example.test/" }
        (NetOutcome.tlsFail "bad cert")).1
      = { status := some 503, error := some ("Connection failed: " ++ "bad cert"),
          success := some false }
    ∧ (process_request { url := some "https://example.test/" }
        (NetOutcome.tunnelFail "bad cert")).1
      = { status := some 503, error := some ("Connection failed: " ++ "bad cert"),
          success := some false } :=
  c1_amended_tls_and_tunnel_fail_503 _ "https://example.test/" "bad cert"
    rfl (by decide) (by decide) (by decide)

/-- Claim C2, counterexample: when ES answers the very first attempt with a
TunnelFailed envelope (`{success: False, status: 503, error: ...}`),
`_send_with_retry` returns it immediately — one `send_request` call, not
`MAX_RETRIES` = 3 — because the loop returns any reply that is not `None`;
`_handle_request` then sends 503 with the error text without any retry or
delay. -/
theorem c2_no_retry_on_failure_envelope :
    send_with_retry
        (fun _ => some { status := some 503,
                         error := some "Connection failed: tunnel open rejected",
                         success := some false })
      = (some { status := some 503,
                error := some "Connection failed: tunnel open rejected",
                success := some false }, 1)
    ∧ (1 : Nat) ≠ MAX_RETRIES
    ∧ handle_reply (some { status := some 503,
                           error := some "Connection failed: tunnel open rejected",
                           success := some false })
      = HttpOut.errorResp 503 "Connection failed: tunnel open rejected" := by
  exact ⟨rfl, by decide, rfl⟩

/-- Claim C2 (amended): HIP does not retry TunnelFailed envelopes.  Whenever
the first `send_request` call yields any envelope at all, `_send_with_retry`
returns it after that single attempt; for a failure envelope (such as the
503 TunnelFailed one) `_handle_request` then answers the client with the
envelope's status and error text.  Retries — up to `MAX_RETRIES` = 3 — happen
only when `send_request` produces no reply (control-channel I/O failure),
and the `RETRY_DELAY` sleep sits in an `except` clause that reply outcomes
never reach. -/
theorem c2_amended_first_envelope_returned (attempts : Nat → Option ResponseEnvelope)
    (env : ResponseEnvelope) (h0 : attempts 0 = some env)
    (hf : env.success ≠ some true) :
    send_with_retry attempts = (some env, 1)
    ∧ handle_reply (some env)
      = HttpOut.errorResp (env.status.getD 500) (env.error.getD "Unknown error") := by
  constructor
  · simp only [send_with_retry, MAX_RETRIES, retryLoop, h0]
  · simp only [handle_reply]
    rcases hsf : env.success with _ | b
    · simp
    · cases b with
      | false => simp
      | true => exact absurd hsf hf

/-- Claim C2 (amended), witness. -/
theorem c2_amended_witness :
    send_with_retry
        (fun _ => some { status := some 503,
                         error := some "Connection failed: HTR down",
                         success := some false })
      = (some { status := some 503,
                error := some "Connection failed: HTR down",
                success := some false }, 1)
    ∧ handle_reply (some { status := some 503,
                           error := some "Connection failed: HTR down",
                           success := some false })
      = HttpOut.errorResp ((some (503 : Int)).getD 500)
          ((some "Connection failed: HTR down").getD "Unknown error") :=
  c2_amended_first_envelope_returned _ _ rfl (by decide)

/-- Claim C3, counterexample: the request URL `http://example.test:abc/` has
scheme `http` (not `https`) but ES does not answer 400: evaluating
`parsed_url.port` raises `ValueError` before the scheme check, the outer
`except` catches it, and the reply is the 500 internal-error envelope.  No
tunnel is opened. -/
theorem c3_invalid_port_gives_500 :
    (process_request { url := some "http://example.test:abc/" }
        (NetOutcome.upstream [])).1.status = some 500
    ∧ ¬ ((process_request { url := some "http://example.test:abc/" }
        (NetOutcome.upstream [])).1.status = some 400)
    ∧ (process_request { url := some "http://example.test:abc/" }
        (NetOutcome.upstream [])).2 = [] := by
  decide

/-- Claim C3 (amended): for every request whose URL is absent, empty or has a
non-`https` scheme, ES never opens a tunnel and responds with the
BadRequest (400) envelope — except that a URL whose port component does not
parse as an integer in 0–65535 makes `parsed_url.port` raise before the
scheme check, producing the 500 internal-error envelope instead (still with
no tunnel opened). -/
theorem c3_amended_nonhttps_rejected (req : RequestEnvelope) (net : NetOutcome)
    (h : ∀ u, req.url = some u → (pyUrlparse u).scheme ≠ "https") :
    (process_request req net).2 = []
    ∧ ((process_request req net).1.status = some 400
       ∨ ((process_request req net).1.status = some 500
          ∧ ∃ u, req.url = some u ∧ portParseFails u = true)) := by
  rcases hu : req.url with _ | u
  · have hgetd : req.url.getD "" = "" := by rw [hu]; rfl
    simp only [process_request, hgetd]
    exact ⟨rfl, Or.inl rfl⟩
  · have hgetd : req.url.getD "" = u := by rw [hu]; rfl
    by_cases hne : u = ""
    · simp only [process_request, hgetd, hne]
      exact ⟨rfl, Or.inl rfl⟩
    · simp only [process_request, hgetd]
      rw [if_neg hne]
      rcases hpp : pyPort (pyUrlparse u) with e | portOpt
      · refine ⟨rfl, Or.inr ⟨rfl, u, rfl, ?_⟩⟩
        unfold portParseFails
        rw [hpp]
      · simp only [hpp]
        rw [if_pos (h u hu)]
        exact ⟨rfl, Or.inl rfl⟩

/-- Claim C3 (amended), witness. -/
theorem c3_amended_witness :
    (process_request { url := some "http://example.test/" }
        (NetOutcome.upstream [])).2 = []
    ∧ ((process_request { url := some "http://example.test/" }
        (NetOutcome.upstream [])).1.status = some 400
       ∨ ((process_request { url := some "http://example.test/" }
        (NetOutcome.upstream [])).1.status = some 500
          ∧ ∃ u, ({ url := some "http://example.test/" } : RequestEnvelope).url = some u
            ∧ portParseFails u = true)) :=
  c3_amended_nonhttps_rejected _ _
    (by intro u hu; injection hu with h2; subst h2; decide)

/-- Claim C4, counterexample: the BadRequest envelope for a missing URL is
`{'status': 400, 'error': 'URL is required'}` — it carries no `success` key
at all, contradicting the claim that every failure envelope has an explicit
`success: false`. -/
theorem c4_badrequest_lacks_success_field :
    (process_request { url := none } (NetOutcome.upstream [])).1
      = { status := some 400, error := some "URL is required" }
    ∧ (process_request { url := none } (NetOutcome.upstream [])).1.success = none := by
  decide

/-- Claim C4 (amended): every failure envelope ES produces carries a status
code and an error string, and carries `success: false` explicitly — except
the two BadRequest (400) envelopes from URL validation, which omit the
`success` key entirely (HIP still routes them to its error path because
`response.get('success', False)` defaults to `False`). -/
theorem c4_amended_failure_envelope_shape (req : RequestEnvelope) (net : NetOutcome)
    (hfail : (process_request req net).1.success ≠ some true) :
    (process_request req net).1.status.isSome = true
    ∧ (process_request req net).1.error.isSome = true
    ∧ ((process_request req net).1.success = some false
       ∨ ((process_request req net).1.success = none
          ∧ (process_request req net).1.status = some 400)) := by
  rcases process_request_shape req net with h1 | h1
  · exact absurd h1 hfail
  · exact h1

/-- Claim C4 (amended), witness. -/
theorem c4_amended_witness :
    (process_request { url := none } (NetOutcome.tunnelFail "x")).1.status.isSome = true
    ∧ (process_request { url := none } (NetOutcome.tunnelFail "x")).1.error.isSome = true
    ∧ ((process_request { url := none } (NetOutcome.tunnelFail "x")).1.success = some false
       ∨ ((process_request { url := none } (NetOutcome.tunnelFail "x")).1.success = none
          ∧ (process_request { url := none } (NetOutcome.tunnelFail "x")).1.status = some 400)) :=
  c4_amended_failure_envelope_shape _ _ (by decide)

/-- Claim C5: code bug.  With no body, `_build_http_request` terminates the
last header line with a single CRLF and nothing more — `'\r\n'.join` turns
the trailing empty list element into a line terminator for the previous
line, not into the blank line the code's own comment intends — so the
serialized request never contains the `\r\n\r\n` header-block terminator.
With a body the blank line does appear (the body becomes the element after
the empty one), as the final conjunct shows. -/
theorem c5_missing_blank_line_without_body :
    build_http_request "GET" "/" [] none "example.test"
      = "GET / HTTP/1.1\r\nHost: example.test\r\nConnection: close\r\n"
    ∧ isPrefixList ("\r\n\r\n".toList.reverse)
        ("GET / HTTP/1.1\r\nHost: example.test\r\nConnection: close\r\n".toList.reverse)
      = false
    ∧ build_http_request "POST" "/" [] (some "hi") "example.test"
      = "POST / HTTP/1.1\r\nHost: example.test\r\nContent-Length: 2\r\nConnection: close\r\n\r\nhi" := by
  refine ⟨by decide, by decide, by decide⟩

/-- Claim C6, counterexample: an upstream reply that uses
`Transfer-Encoding: chunked` (and no `Content-Length`) is not chunk-decoded:
`_read_http_response` returns the raw chunked framing
`"3\r\nhi!\r\n0\r\n\r\n"` as the body, while RFC 7230 §4.1 decoding — which
the claim asserts — would give `"hi!"`. -/
theorem c6_chunked_not_decoded :
    read_http_response
        ("HTTP/1.1 200 OK\r\nTransfer-Encoding: chunked\r\n\r\n3\r\nhi!\r\n0\r\n\r\n".toList)
      = { status := some 200, headers := some [("Transfer-Encoding", "chunked")],
          body := some "3\r\nhi!\r\n0\r\n\r\n", success := some true }
    ∧ chunkedDecodeSpec ("3\r\nhi!\r\n0\r\n\r\n".toList) = some "hi!"
    ∧ some "3\r\nhi!\r\n0\r\n\r\n" ≠ some "hi!" := by
  refine ⟨by decide, by decide, by decide⟩

/-- Claim C6 (amended): ES determines the body length from the parsed
headers as follows: if `Content-Length` is present and parses as a
non-negative integer no larger than the remaining stream, exactly that many
bytes are read; otherwise — including when `Transfer-Encoding: chunked` is
present — the stream is read to EOF with no chunked decoding. -/
theorem c6_amended_body_length_rule (hdrs : List (String × String)) (s : List Char) :
    (dictGet hdrs "Content-Length" = none → readBody hdrs s = some s)
    ∧ (∀ cl (n : Int), dictGet hdrs "Content-Length" = some cl →
        pyIntStr? cl.toList = some n → 0 ≤ n → n.toNat ≤ s.length →
        readBody hdrs s = some (s.take n.toNat)) := by
  constructor
  · intro hcl
    unfold readBody
    rw [hcl]
  · intro cl n hcl hint hn hlen
    unfold readBody
    simp only [hcl, hint]
    rw [if_neg (by omega), if_pos hlen]

/-- Claim C6 (amended), witness. -/
theorem c6_amended_witness :
    readBody [("Transfer-Encoding", "chunked")] "abcd".toList = some "abcd".toList
    ∧ readBody [("Content-Length", "2")] "abcd".toList = some ("abcd".toList.take (2 : Int).toNat) :=
  ⟨(c6_amended_body_length_rule [("Transfer-Encoding", "chunked")] "abcd".toList).1 (by decide),
   (c6_amended_body_length_rule [("Content-Length", "2")] "abcd".toList).2 "2" 2
     (by decide) (by decide) (by decide) (by decide)⟩

/-- Claim C7, counterexample: when a forwarding direction sees EOF on its
very first read, the only action it performs on the peer writer is
`StreamWriter.close()` — a full transport close tearing down both halves of
the peer socket — and not the `write_eof()` half-close the claim
describes. -/
theorem c7_full_close_on_eof :
    forwardLoop [[]] = [WriterAction.close]
    ∧ WriterAction.close ≠ WriterAction.writeEofHalfClose := by
  exact ⟨rfl, by decide⟩

/-- Claim C7 (amended): each forwarding direction of
`_forward_data_bidirectional` copies the chunks that precede EOF to the peer
and then closes the peer `StreamWriter` entirely (`close()`); it never
issues a `write_eof()` half-close, so the peer connection is torn down
rather than left open for the opposite direction. -/
theorem c7_amended_close_not_halfclose (reads : List (List Nat)) :
    forwardLoop reads
      = ((reads.takeWhile (fun c => c ≠ [])).map WriterAction.write)
        ++ [WriterAction.close]
    ∧ WriterAction.writeEofHalfClose ∉ forwardLoop reads := by
  have hmain : forwardLoop reads
      = ((reads.takeWhile (fun c => c ≠ [])).map WriterAction.write)
        ++ [WriterAction.close] := by
    induction reads with
    | nil => rfl
    | cons c rest ih =>
      by_cases hc : c = []
      · subst hc
        simp [forwardLoop, List.takeWhile]
      · rw [forwardLoop, if_neg hc, ih]
        have ht : (c :: rest).takeWhile (fun d => d ≠ []) =
            c :: rest.takeWhile (fun d => d ≠ []) := by
          rw [List.takeWhile_cons]
          simp [hc]
        rw [ht, List.map_cons, List.cons_append]
  refine ⟨hmain, ?_⟩
  rw [hmain]
  intro hmem
  rcases List.mem_append.mp hmem with hmem2 | hmem2
  · rcases List.mem_map.mp hmem2 with ⟨d, _, hd⟩
    exact WriterAction.noConfusion hd
  · rcases List.mem_singleton.mp hmem2 with h2
    exact WriterAction.noConfusion h2

/-- Claim C8: framing round-trip.  For any payload below the 2^32
`to_bytes` bound, writing a frame and reading it back (possibly with more
stream data after it) returns exactly the payload and leaves the rest of the
stream, and the first four bytes of a frame are the big-endian encoding of
the length of the remainder. -/
theorem c8_framing_roundtrip (m extra : List Nat) (h : m.length < 4294967296) :
    decodeFrame (encodeFrame m ++ extra) = some (m, extra)
    ∧ (encodeFrame m).take 4 = toBytesBE ((encodeFrame m).drop 4).length := by
  refine ⟨decodeFrame_encodeFrame m extra h, ?_⟩
  have hd : (encodeFrame m).drop 4 = m := rfl
  have ht : (encodeFrame m).take 4 = toBytesBE m.length := rfl
  rw [hd, ht]

/-- Claim C8, witness. -/
theorem c8_framing_roundtrip_witness :
    decodeFrame (encodeFrame [104, 105] ++ [7]) = some ([104, 105], [7])
    ∧ (encodeFrame [104, 105]).take 4
      = toBytesBE ((encodeFrame [104, 105]).drop 4).length :=
  c8_framing_roundtrip [104, 105] [7] (by decide)

/-- Claim C9, counterexample: a frame whose 4-byte prefix declares
16777217 bytes — one more than the 16 MiB cap the claim says is enforced —
is read in full by the shared reader shape rather than rejected. -/
theorem c9_oversize_frame_accepted :
    fromBytesBE ((encodeFrame (List.replicate 16777217 0)).take 4) = 16777217
    ∧ 16 * 1024 * 1024 < 16777217
    ∧ decodeFrame (encodeFrame (List.replicate 16777217 0))
      = some (List.replicate 16777217 0, []) := by
  have hlen : (List.replicate 16777217 (0 : Nat)).length = 16777217 :=
    List.length_replicate 16777217 0
  have hbytes : toBytesBE 16777217 = [1, 0, 0, 1] := by decide
  refine ⟨?_, by norm_num, ?_⟩
  · have he : encodeFrame (List.replicate 16777217 (0 : Nat))
        = [1, 0, 0, 1] ++ List.replicate 16777217 0 := by
      unfold encodeFrame
      rw [hlen, hbytes]
    rw [he]
    have ht : ([1, 0, 0, 1] ++ List.replicate 16777217 (0 : Nat)).take 4
        = [1, 0, 0, 1] := rfl
    rw [ht]
    decide
  · have h := decodeFrame_encodeFrame (List.replicate 16777217 0) []
      (by rw [hlen]; norm_num)
    rwa [List.append_nil] at h

/-- Claim C9 (amended): none of the three length-prefixed readers
(`VSockServer.handle_client`, `NetworkTunnel.handle_tunnel_request`,
`VSockClient.send_request`) enforces any cap: for every declared length
below the 2^32 framing bound, the reader accepts the frame and reads exactly
that many bytes whenever the stream holds them. -/
theorem c9_amended_no_length_cap (n : Nat) (rest : List Nat)
    (hn : n < 4294967296) (hr : n ≤ rest.length) :
    decodeFrame (toBytesBE n ++ rest) = some (rest.take n, rest.drop n) := by
  unfold decodeFrame
  have h4 : readexactly 4 (toBytesBE n ++ rest) = some (toBytesBE n, rest) := by
    have := readexactly_append (toBytesBE n) rest
    rwa [length_toBytesBE] at this
  simp only [h4, fromBytesBE_toBytesBE hn]
  unfold readexactly
  rw [if_pos hr]

/-- Claim C9 (amended), witness. -/
theorem c9_amended_witness :
    decodeFrame (toBytesBE 2 ++ [7, 8, 9])
      = some (([7, 8, 9] : List Nat).take 2, ([7, 8, 9] : List Nat).drop 2) :=
  c9_amended_no_length_cap 2 [7, 8, 9] (by norm_num) (by norm_num)

/-- Claim C10: for every control-channel reply envelope whose `success`
field is absent or not `True`, `_handle_request` sends an error HTTP
response whose status defaults to 500 when the envelope has no `status` key
and whose text defaults to `'Unknown error'` when it has no `error` key
(`response.get('status', 500)` / `response.get('error', 'Unknown error')`). -/
theorem c10_error_reply_defaults (r : ResponseEnvelope)
    (h : r.success ≠ some true) :
    handle_reply (some r)
      = HttpOut.errorResp (r.status.getD 500) (r.error.getD "Unknown error") := by
  simp only [handle_reply]
  rcases hs : r.success with _ | b
  · simp
  · cases b with
    | false => simp
    | true => exact absurd hs h

/-- Claim C10, witness. -/
theorem c10_error_reply_defaults_witness :
    handle_reply (some ({} : ResponseEnvelope))
      = HttpOut.errorResp ((({} : ResponseEnvelope)).status.getD 500)
          ((({} : ResponseEnvelope)).error.getD "Unknown error") :=
  c10_error_reply_defaults {} (by decide)
